import Mathlib

/-!
Verification development for the AnchorKit contract (src/src/lib.rs,
src/src/storage.rs, src/src/credentials.rs, src/src/types.rs).

The contract is embedded shallowly: the soroban key-value store becomes an
explicit `ContractState` record of association lists (one per storage-key
family of `storage.rs`), and every contract entry point becomes a function
`... → ContractState → Except Error α × ContractState` that threads the
state exactly the way the Rust code mutates storage.  The ledger is an
explicit `Env` record carrying the current timestamp and sequence number.
Caller-identity proofs (`require_auth`) are supplied by the hosting
environment and are out of scope, so they are modelled as always-passing.

Machine integers: `u64`/`u32` values are modelled as `Nat`.  The global
counters only grow by one per call, so their overflow is unreachable and
they are kept as plain `Nat`; the two places where the source itself is
overflow-sensitive are modelled explicitly — `checked_add` in
`build_transaction_intent` becomes `checkedAdd64`, and the unchecked
`u64` multiplications/additions of `calculate_effective_rate` are wrapped
with `w64 x = x % 2^64`.
-/

/-- Addresses (`soroban_sdk::Address`) are opaque identities; modelled as `Nat`. -/
abbrev Address : Type := Nat

/-- 32-byte payload hashes (`BytesN<32>`) are opaque keys; modelled as `Nat`. -/
abbrev Hash : Type := Nat

/-- Signatures (`soroban_sdk::Bytes`) are opaque, never inspected by the code
(the verification hook is a stub); modelled as `Nat`. -/
abbrev SigBytes : Type := Nat

/-- One above the largest `u64` value. -/
def U64SIZE : Nat := 2 ^ 64

/-- Wrapping `u64` arithmetic (Rust release-profile overflow behaviour). -/
def w64 (x : Nat) : Nat := x % U64SIZE

/-- Rust `u64::checked_add`: `none` when the mathematical sum does not fit. -/
def checkedAdd64 (x y : Nat) : Option Nat :=
  if x + y < U64SIZE then some (x + y) else none

/-- Modelled from the spec: the error enumeration of `errors.rs`, which is not
under `src/` (only its uses in `lib.rs`/`storage.rs` are).  Variants follow
the closed list of spec §7 and the constructors used throughout the source. -/
inductive Error where
  | AlreadyInitialized
  | NotInitialized
  | UnauthorizedAttestor
  | AttestorAlreadyRegistered
  | AttestorNotRegistered
  | AttestationNotFound
  | ReplayAttack
  | InvalidTimestamp
  | EndpointNotFound
  | InvalidEndpointFormat
  | ServicesNotConfigured
  | InvalidServiceType
  | InvalidQuote
  | StaleQuote
  | QuoteNotFound
  | NoQuotesAvailable
  | InvalidTransactionIntent
  | ComplianceNotMet
  | SessionNotFound
  | SessionReplayAttack
  | InvalidCredentialFormat
deriving DecidableEq, Repr

/-- `types.rs` `ServiceType`. -/
inductive ServiceType where
  | Deposits
  | Withdrawals
  | Quotes
  | KYC
deriving DecidableEq, Repr

/-- `types.rs` `Attestation`. -/
structure Attestation where
  id : Nat
  issuer : Address
  subject : Address
  timestamp : Nat
  payload_hash : Hash
  signature : SigBytes
deriving DecidableEq, Repr

/-- `types.rs` `AnchorServices`. -/
structure AnchorServices where
  anchor : Address
  services : List ServiceType
deriving DecidableEq, Repr

/-- `types.rs` `QuoteData`. -/
structure QuoteData where
  anchor : Address
  base_asset : String
  quote_asset : String
  rate : Nat
  fee_percentage : Nat
  minimum_amount : Nat
  maximum_amount : Nat
  valid_until : Nat
  quote_id : Nat
deriving DecidableEq, Repr

/-- `types.rs` `RateComparison`. -/
structure RateComparison where
  best_quote : QuoteData
  all_quotes : List QuoteData
  comparison_timestamp : Nat
deriving DecidableEq, Repr

/-- `types.rs` `QuoteRequest`. -/
structure QuoteRequest where
  base_asset : String
  quote_asset : String
  amount : Nat
  operation_type : ServiceType
deriving DecidableEq, Repr

/-- `types.rs` `TransactionIntentBuilder`. -/
structure TransactionIntentBuilder where
  anchor : Address
  request : QuoteRequest
  quote_id : Nat
  require_kyc : Bool
  session_id : Nat
  ttl_seconds : Nat
deriving DecidableEq, Repr

/-- `types.rs` `TransactionIntent`. -/
structure TransactionIntent where
  intent_id : Nat
  anchor : Address
  request : QuoteRequest
  quote_id : Nat
  has_quote : Bool
  rate : Nat
  fee_percentage : Nat
  requires_kyc : Bool
  session_id : Nat
  created_at : Nat
  expires_at : Nat
deriving DecidableEq, Repr

/-- `types.rs` `InteractionSession`. -/
structure InteractionSession where
  session_id : Nat
  initiator : Address
  created_at : Nat
  operation_count : Nat
  nonce : Nat
deriving DecidableEq, Repr

/-- `types.rs` `OperationContext`. -/
structure OperationContext where
  session_id : Nat
  operation_index : Nat
  operation_type : String
  timestamp : Nat
  status : String
  result_data : Nat
deriving DecidableEq, Repr

/-- `types.rs` `AuditLog`. -/
structure AuditLog where
  log_id : Nat
  session_id : Nat
  operation : OperationContext
  actor : Address
deriving DecidableEq, Repr

/-- `credentials.rs` `CredentialType`. -/
inductive CredentialType where
  | ApiKey
  | BearerToken
  | BasicAuth
  | OAuth2
  | MutualTLS
deriving DecidableEq, Repr

/-- `credentials.rs` `SecureCredential` (the encrypted value is opaque;
modelled as its byte length, the only aspect the code inspects). -/
structure SecureCredential where
  attestor : Address
  credential_type : CredentialType
  encrypted_value : Nat
  created_at : Nat
  expires_at : Nat
  rotation_required : Bool
deriving DecidableEq, Repr

/-- `credentials.rs` `CredentialPolicy`. -/
structure CredentialPolicy where
  attestor : Address
  rotation_interval_seconds : Nat
  require_encryption : Bool
  allow_plaintext_storage : Bool
deriving DecidableEq, Repr

/-- `credentials.rs` `SecureCredential::is_expired`. -/
def SecureCredential.is_expired (c : SecureCredential) (currentTimestamp : Nat) : Bool :=
  decide (0 < c.expires_at) && decide (c.expires_at ≤ currentTimestamp)

/-- `credentials.rs` `SecureCredential::needs_rotation`.  Rust's
`saturating_sub` is exactly `Nat` truncated subtraction, so the age
computation is total and never underflows. -/
def SecureCredential.needs_rotation (c : SecureCredential) (currentTimestamp : Nat)
    (policy : CredentialPolicy) : Bool :=
  if c.rotation_required then
    true
  else if 0 < policy.rotation_interval_seconds then
    decide (policy.rotation_interval_seconds ≤ currentTimestamp - c.created_at)
  else
    false

/-- `lib.rs` `calculate_effective_rate`, with the source's unchecked `u64`
multiplications and addition made explicit via `w64`. -/
def calculateEffectiveRate (quote : QuoteData) (amount : Nat) : Nat :=
  let feeAmount := w64 (amount * quote.fee_percentage) / 10000
  let effectiveAmount := w64 (amount + feeAmount)
  w64 (quote.rate * effectiveAmount) / amount

/-- Modelled from the spec: the effective-rate formula of §4.4 read as exact
integer arithmetic, `rate * (amount + amount*fee_bps/10000) / amount`.
Kept separate from `calculateEffectiveRate` (the source embedding) so the
two can be compared. -/
def specEffectiveRate (quote : QuoteData) (amount : Nat) : Nat :=
  quote.rate * (amount + amount * quote.fee_percentage / 10000) / amount

/-! ## Association-list store and contract state -/

/-- Lookup in an association list (first binding wins, newest first). -/
def alGet {κ α : Type} [DecidableEq κ] : List (κ × α) → κ → Option α
  | [], _ => none
  | (k', v) :: rest, k => if k' = k then some v else alGet rest k

/-- Write to an association list: the new binding shadows any older one. -/
def alSet {κ α : Type} (m : List (κ × α)) (k : κ) (v : α) : List (κ × α) :=
  (k, v) :: m

theorem alGet_set_self {κ α : Type} [DecidableEq κ] (m : List (κ × α)) (k : κ) (v : α) :
    alGet (alSet m k v) k = some v := by
  simp [alGet, alSet]

theorem alGet_set_ne {κ α : Type} [DecidableEq κ] (m : List (κ × α)) {k k' : κ} (v : α)
    (h : k' ≠ k) : alGet (alSet m k v) k' = alGet m k' := by
  have hne : ¬ (k = k') := fun hh => h hh.symm
  simp [alGet, alSet, hne]

/-- Ledger facts supplied by the hosting environment (`env.ledger()`). -/
structure Env where
  timestamp : Nat
  sequence : Nat
deriving DecidableEq, Repr

/-- The contract's storage, one association list (or counter cell) per
`StorageKey` family of `storage.rs`.  Counter cells read with
`unwrap_or(0)` are modelled as a `Nat` starting at `0`. -/
structure ContractState where
  admin : Option Address
  attestors : List (Address × Bool)
  counter : Nat
  attestations : List (Nat × Attestation)
  usedHashes : List (Hash × Bool)
  anchorServices : List (Address × AnchorServices)
  quotes : List ((Address × Nat) × QuoteData)
  quoteCounter : Nat
  intentCounter : Nat
  sessionCounter : Nat
  sessions : List (Nat × InteractionSession)
  sessionNonces : List (Nat × Nat)
  auditCounter : Nat
  auditLogs : List (Nat × AuditLog)
  sessionOpCounts : List (Nat × Nat)
deriving DecidableEq, Repr

/-- The state of a freshly deployed contract: every key absent. -/
def initState : ContractState :=
  { admin := none, attestors := [], counter := 0, attestations := [], usedHashes := []
    anchorServices := [], quotes := [], quoteCounter := 0, intentCounter := 0
    sessionCounter := 0, sessions := [], sessionNonces := [], auditCounter := 0
    auditLogs := [], sessionOpCounts := [] }

/-! ## The storage layer (`storage.rs`) -/

/-- `Storage::has_admin`. -/
def Storage.hasAdmin (s : ContractState) : Bool := s.admin.isSome

/-- `Storage::set_admin`. -/
def Storage.setAdmin (s : ContractState) (a : Address) : ContractState :=
  { s with admin := some a }

/-- `Storage::get_admin`. -/
def Storage.getAdmin (s : ContractState) : Except Error Address :=
  match s.admin with
  | some a => .ok a
  | none => .error .NotInitialized

/-- `Storage::set_attestor`. -/
def Storage.setAttestor (s : ContractState) (a : Address) (isRegistered : Bool) : ContractState :=
  { s with attestors := alSet s.attestors a isRegistered }

/-- `Storage::is_attestor` (`get(..).unwrap_or(false)`). -/
def Storage.isAttestor (s : ContractState) (a : Address) : Bool :=
  (alGet s.attestors a).getD false

/-- `Storage::get_and_increment_counter` — returns the pre-increment value. -/
def Storage.getAndIncrementCounter (s : ContractState) : Nat × ContractState :=
  (s.counter, { s with counter := s.counter + 1 })

/-- `Storage::set_attestation`. -/
def Storage.setAttestation (s : ContractState) (id : Nat) (att : Attestation) : ContractState :=
  { s with attestations := alSet s.attestations id att }

/-- `Storage::get_attestation`. -/
def Storage.getAttestation (s : ContractState) (id : Nat) : Except Error Attestation :=
  match alGet s.attestations id with
  | some a => .ok a
  | none => .error .AttestationNotFound

/-- `Storage::mark_hash_used`. -/
def Storage.markHashUsed (s : ContractState) (h : Hash) : ContractState :=
  { s with usedHashes := alSet s.usedHashes h true }

/-- `Storage::is_hash_used` (`get(..).unwrap_or(false)`). -/
def Storage.isHashUsed (s : ContractState) (h : Hash) : Bool :=
  (alGet s.usedHashes h).getD false

/-- `Storage::set_anchor_services`. -/
def Storage.setAnchorServices (s : ContractState) (sv : AnchorServices) : ContractState :=
  { s with anchorServices := alSet s.anchorServices sv.anchor sv }

/-- `Storage::get_anchor_services`. -/
def Storage.getAnchorServices (s : ContractState) (a : Address) : Except Error AnchorServices :=
  match alGet s.anchorServices a with
  | some v => .ok v
  | none => .error .ServicesNotConfigured

/-- `Storage::set_quote` (keyed by `(anchor, quote_id)`). -/
def Storage.setQuote (s : ContractState) (q : QuoteData) : ContractState :=
  { s with quotes := alSet s.quotes (q.anchor, q.quote_id) q }

/-- `Storage::get_quote`. -/
def Storage.getQuote (s : ContractState) (a : Address) (quoteId : Nat) : Option QuoteData :=
  alGet s.quotes (a, quoteId)

/-- `Storage::get_next_quote_id` — stores and returns the post-increment value. -/
def Storage.getNextQuoteId (s : ContractState) : Nat × ContractState :=
  (s.quoteCounter + 1, { s with quoteCounter := s.quoteCounter + 1 })

/-- `Storage::get_next_intent_id` — stores and returns the post-increment value. -/
def Storage.getNextIntentId (s : ContractState) : Nat × ContractState :=
  (s.intentCounter + 1, { s with intentCounter := s.intentCounter + 1 })

/-- `Storage::get_and_increment_session_counter` — returns the pre-increment value. -/
def Storage.getAndIncrementSessionCounter (s : ContractState) : Nat × ContractState :=
  (s.sessionCounter, { s with sessionCounter := s.sessionCounter + 1 })

/-- `Storage::create_session`: allocates the next session id, snapshots the
ledger sequence as the nonce, stores the session with `operation_count = 0`. -/
def Storage.createSession (env : Env) (initiator : Address) (s : ContractState) :
    Nat × ContractState :=
  let (sessionId, s1) := Storage.getAndIncrementSessionCounter s
  let nonce := env.sequence
  let session : InteractionSession :=
    { session_id := sessionId, initiator := initiator, created_at := env.timestamp
      operation_count := 0, nonce := nonce }
  let s2 := { s1 with sessions := alSet s1.sessions sessionId session }
  let s3 := { s2 with sessionNonces := alSet s2.sessionNonces sessionId nonce }
  (sessionId, s3)

/-- `Storage::get_session`. -/
def Storage.getSession (s : ContractState) (sessionId : Nat) : Except Error InteractionSession :=
  match alGet s.sessions sessionId with
  | some v => .ok v
  | none => .error .SessionNotFound

/-- `Storage::increment_session_operation_count` — returns the pre-increment
count and stores `count + 1` under the separate per-session counter key. -/
def Storage.incrementSessionOperationCount (s : ContractState) (sessionId : Nat) :
    Nat × ContractState :=
  let count := (alGet s.sessionOpCounts sessionId).getD 0
  (count, { s with sessionOpCounts := alSet s.sessionOpCounts sessionId (count + 1) })

/-- `Storage::get_session_operation_count` (`get(..).unwrap_or(0)`). -/
def Storage.getSessionOperationCount (s : ContractState) (sessionId : Nat) : Nat :=
  (alGet s.sessionOpCounts sessionId).getD 0

/-- `Storage::verify_session_nonce` (defined in the source but never called
by any entry point). -/
def Storage.verifySessionNonce (s : ContractState) (sessionId nonce : Nat) :
    Except Error Unit :=
  match alGet s.sessionNonces sessionId with
  | none => .error .SessionNotFound
  | some stored => if stored ≠ nonce then .error .SessionReplayAttack else .ok ()

/-- `Storage::get_and_increment_audit_counter` — returns the pre-increment value. -/
def Storage.getAndIncrementAuditCounter (s : ContractState) : Nat × ContractState :=
  (s.auditCounter, { s with auditCounter := s.auditCounter + 1 })

/-- `Storage::log_operation`: allocates the next global log id and persists
the `AuditLog`. -/
def Storage.logOperation (s : ContractState) (sessionId : Nat) (actor : Address)
    (operation : OperationContext) : Nat × ContractState :=
  let (logId, s1) := Storage.getAndIncrementAuditCounter s
  let auditLog : AuditLog :=
    { log_id := logId, session_id := sessionId, operation := operation, actor := actor }
  (logId, { s1 with auditLogs := alSet s1.auditLogs logId auditLog })

/-- `Storage::get_audit_log` (absence is reported as `SessionNotFound`,
exactly as in the source). -/
def Storage.getAuditLog (s : ContractState) (logId : Nat) : Except Error AuditLog :=
  match alGet s.auditLogs logId with
  | some v => .ok v
  | none => .error .SessionNotFound

/-! ## The contract layer (`lib.rs`)

Each entry point takes the ledger `Env` and the pre-state and returns the
source function's `Result` together with the post-state as left by the code
itself, i.e. including any storage writes issued before an early `return
Err(..)`.  Whether such writes survive a failed call is the hosting
environment's commit rule, modelled separately by `commitCall` below. -/

/-- `lib.rs` `initialize` (named `initAdmin` here). -/
def Contract.initAdmin (_env : Env) (admin : Address) (s : ContractState) :
    Except Error Unit × ContractState :=
  if Storage.hasAdmin s then (.error .AlreadyInitialized, s)
  else (.ok (), Storage.setAdmin s admin)

/-- `lib.rs` `validate_services`: non-empty and free of duplicate entries.
The final index-bounds loop of the source (`services.get(i).is_none()`)
can never fail for `0 ≤ i < len` and adds no behaviour. -/
def Contract.servicesDistinct : List ServiceType → Bool
  | [] => true
  | x :: xs => !(xs.contains x) && Contract.servicesDistinct xs

/-- `lib.rs` `validate_services`. -/
def Contract.validateServices (services : List ServiceType) : Except Error Unit :=
  if services.isEmpty then .error .InvalidServiceType
  else if !(Contract.servicesDistinct services) then .error .InvalidServiceType
  else .ok ()

/-- `lib.rs` `configure_services`. -/
def Contract.configureServices (_env : Env) (anchor : Address)
    (services : List ServiceType) (s : ContractState) :
    Except Error Unit × ContractState :=
  match Storage.getAdmin s with
  | .error e => (.error e, s)
  | .ok _ =>
    match Contract.validateServices services with
    | .error e => (.error e, s)
    | .ok _ =>
      if !(Storage.isAttestor s anchor) then (.error .AttestorNotRegistered, s)
      else (.ok (), Storage.setAnchorServices s { anchor := anchor, services := services })

/-- `lib.rs` `validate_transaction_operation`. -/
def Contract.validateTransactionOperation : ServiceType → Except Error Unit
  | .Deposits => .ok ()
  | .Withdrawals => .ok ()
  | _ => .error .InvalidServiceType

/-- `lib.rs` `log_session_operation`: requires the session to exist, reads the
per-session counter (pre-increment value becomes `operation_index`),
increments it, allocates a global log id, persists the `AuditLog`. -/
def Contract.logSessionOperation (env : Env) (sessionId : Nat) (actor : Address)
    (operationType status : String) (resultData : Nat) (s : ContractState) :
    Except Error Nat × ContractState :=
  match Storage.getSession s sessionId with
  | .error e => (.error e, s)
  | .ok _ =>
    let (operationIndex, s1) := Storage.incrementSessionOperationCount s sessionId
    let operation : OperationContext :=
      { session_id := sessionId, operation_index := operationIndex
        operation_type := operationType, timestamp := env.timestamp
        status := status, result_data := resultData }
    let (logId, s2) := Storage.logOperation s1 sessionId actor operation
    (.ok logId, s2)

/-- `lib.rs` `verify_signature` — a permissive stub in the source. -/
def Contract.verifySignature (_env : Env) (_issuer _subject : Address)
    (_timestamp : Nat) (_payloadHash : Hash) (_signature : SigBytes) :
    Except Error Unit :=
  .ok ()

/-- `lib.rs` `submit_attestation_with_session`. -/
def Contract.submitAttestationWithSession (env : Env) (sessionId : Nat)
    (issuer subject : Address) (timestamp : Nat) (payloadHash : Hash)
    (signature : SigBytes) (s : ContractState) :
    Except Error Nat × ContractState :=
  if timestamp = 0 then
    match Contract.logSessionOperation env sessionId issuer "attest" "failed" 0 s with
    | (.error e, s1) => (.error e, s1)
    | (.ok _, s1) => (.error .InvalidTimestamp, s1)
  else if !(Storage.isAttestor s issuer) then
    match Contract.logSessionOperation env sessionId issuer "attest" "failed" 0 s with
    | (.error e, s1) => (.error e, s1)
    | (.ok _, s1) => (.error .UnauthorizedAttestor, s1)
  else if Storage.isHashUsed s payloadHash then
    match Contract.logSessionOperation env sessionId issuer "attest" "failed" 0 s with
    | (.error e, s1) => (.error e, s1)
    | (.ok _, s1) => (.error .ReplayAttack, s1)
  else
    match Contract.verifySignature env issuer subject timestamp payloadHash signature with
    | .error e => (.error e, s)
    | .ok _ =>
      let (id, s1) := Storage.getAndIncrementCounter s
      let attestation : Attestation :=
        { id := id, issuer := issuer, subject := subject, timestamp := timestamp
          payload_hash := payloadHash, signature := signature }
      let s2 := Storage.setAttestation s1 id attestation
      let s3 := Storage.markHashUsed s2 payloadHash
      match Contract.logSessionOperation env sessionId issuer "attest" "success" id s3 with
      | (.error e, s4) => (.error e, s4)
      | (.ok _, s4) => (.ok id, s4)

/-- `lib.rs` `register_attestor_with_session`. -/
def Contract.registerAttestorWithSession (env : Env) (sessionId : Nat)
    (attestor : Address) (s : ContractState) :
    Except Error Unit × ContractState :=
  match Storage.getAdmin s with
  | .error e => (.error e, s)
  | .ok admin =>
    if Storage.isAttestor s attestor then
      match Contract.logSessionOperation env sessionId admin "register" "failed" 0 s with
      | (.error e, s1) => (.error e, s1)
      | (.ok _, s1) => (.error .AttestorAlreadyRegistered, s1)
    else
      let s1 := Storage.setAttestor s attestor true
      match Contract.logSessionOperation env sessionId admin "register" "success" 0 s1 with
      | (.error e, s2) => (.error e, s2)
      | (.ok _, s2) => (.ok (), s2)

/-- `lib.rs` `revoke_attestor_with_session`. -/
def Contract.revokeAttestorWithSession (env : Env) (sessionId : Nat)
    (attestor : Address) (s : ContractState) :
    Except Error Unit × ContractState :=
  match Storage.getAdmin s with
  | .error e => (.error e, s)
  | .ok admin =>
    if !(Storage.isAttestor s attestor) then
      match Contract.logSessionOperation env sessionId admin "revoke" "failed" 0 s with
      | (.error e, s1) => (.error e, s1)
      | (.ok _, s1) => (.error .AttestorNotRegistered, s1)
    else
      let s1 := Storage.setAttestor s attestor false
      match Contract.logSessionOperation env sessionId admin "revoke" "success" 0 s1 with
      | (.error e, s2) => (.error e, s2)
      | (.ok _, s2) => (.ok (), s2)

/-- `lib.rs` `create_session` (the entry point: admin gate, then
`Storage::create_session`). -/
def Contract.createSession (env : Env) (initiator : Address) (s : ContractState) :
    Except Error Nat × ContractState :=
  match Storage.getAdmin s with
  | .error e => (.error e, s)
  | .ok _ =>
    let (sessionId, s1) := Storage.createSession env initiator s
    (.ok sessionId, s1)

/-- `lib.rs` `get_session`. -/
def Contract.getSession (s : ContractState) (sessionId : Nat) :
    Except Error InteractionSession :=
  Storage.getSession s sessionId

/-- `lib.rs` `get_audit_log`. -/
def Contract.getAuditLog (s : ContractState) (logId : Nat) : Except Error AuditLog :=
  Storage.getAuditLog s logId

/-- `lib.rs` `get_session_operation_count`: requires the session to exist,
then reads the separate per-session counter key. -/
def Contract.getSessionOperationCount (s : ContractState) (sessionId : Nat) :
    Except Error Nat :=
  match Storage.getSession s sessionId with
  | .error e => .error e
  | .ok _ => .ok (Storage.getSessionOperationCount s sessionId)

/-- `lib.rs` `submit_quote`. -/
def Contract.submitQuote (env : Env) (anchor : Address)
    (baseAsset quoteAsset : String) (rate : Nat) (feePercentage : Nat)
    (minimumAmount maximumAmount validUntil : Nat) (s : ContractState) :
    Except Error Nat × ContractState :=
  if !(Storage.isAttestor s anchor) then (.error .UnauthorizedAttestor, s)
  else if rate = 0 ∨ validUntil ≤ env.timestamp then (.error .InvalidQuote, s)
  else
    match Storage.getAnchorServices s anchor with
    | .error _ => (.error .ServicesNotConfigured, s)
    | .ok services =>
      if !(services.services.contains ServiceType.Quotes) then
        (.error .InvalidServiceType, s)
      else
        let (quoteId, s1) := Storage.getNextQuoteId s
        let quote : QuoteData :=
          { anchor := anchor, base_asset := baseAsset, quote_asset := quoteAsset
            rate := rate, fee_percentage := feePercentage
            minimum_amount := minimumAmount, maximum_amount := maximumAmount
            valid_until := validUntil, quote_id := quoteId }
        (.ok quoteId, Storage.setQuote s1 quote)

/-- `lib.rs` `get_quote` (the read-only accessor). -/
def Contract.getQuote (s : ContractState) (anchor : Address) (quoteId : Nat) :
    Except Error QuoteData :=
  match Storage.getQuote s anchor quoteId with
  | some q => .ok q
  | none => .error .QuoteNotFound

/-- `lib.rs` `get_latest_quote_for_anchor` — the per-(anchor, asset-pair)
index does not exist, so the source always returns `None`. -/
def Contract.getLatestQuoteForAnchor (_env : Env) (_anchor : Address)
    (_request : QuoteRequest) (_s : ContractState) : Option QuoteData :=
  none

/-- `lib.rs` `compare_rates_for_anchors`: filter each anchor's latest quote by
freshness, asset pair and amount bounds, then linear-scan for the minimum
effective rate (strict `<`, so ties keep the first-encountered quote). -/
def Contract.compareRatesForAnchors (env : Env) (request : QuoteRequest)
    (anchors : List Address) (s : ContractState) :
    Except Error RateComparison :=
  let validQuotes := anchors.foldl (fun acc anchor =>
    match Contract.getLatestQuoteForAnchor env anchor request s with
    | some quote =>
      if env.timestamp < quote.valid_until
          ∧ quote.base_asset = request.base_asset
          ∧ quote.quote_asset = request.quote_asset
          ∧ quote.minimum_amount ≤ request.amount
          ∧ request.amount ≤ quote.maximum_amount then
        acc ++ [quote]
      else acc
    | none => acc) []
  match validQuotes with
  | [] => .error .NoQuotesAvailable
  | q0 :: rest =>
    let best := rest.foldl (fun b q =>
      if calculateEffectiveRate q request.amount < calculateEffectiveRate b request.amount
      then q else b) q0
    .ok { best_quote := best, all_quotes := q0 :: rest, comparison_timestamp := env.timestamp }

/-- `lib.rs` `initiate_transfer` (only allocates the next intent id). -/
def Contract.initiateTransfer (_env : Env) (_sender _destination : Address)
    (_amount : Int) (s : ContractState) : Except Error Nat × ContractState :=
  let (transferId, s1) := Storage.getNextIntentId s
  (.ok transferId, s1)

/-- `lib.rs` `build_transaction_intent`. -/
def Contract.buildTransactionIntent (env : Env) (builder : TransactionIntentBuilder)
    (s : ContractState) : Except Error TransactionIntent × ContractState :=
  match Storage.getAdmin s with
  | .error e => (.error e, s)
  | .ok _ =>
    if !(Storage.isAttestor s builder.anchor) then (.error .UnauthorizedAttestor, s)
    else
      match Contract.validateTransactionOperation builder.request.operation_type with
      | .error e => (.error e, s)
      | .ok _ =>
        if builder.request.amount = 0 ∨ builder.ttl_seconds = 0 then
          (.error .InvalidTransactionIntent, s)
        else
          match Storage.getAnchorServices s builder.anchor with
          | .error e => (.error e, s)
          | .ok anchorServices =>
            if !(anchorServices.services.contains builder.request.operation_type) then
              (.error .InvalidServiceType, s)
            else if builder.require_kyc
                && !(anchorServices.services.contains ServiceType.KYC) then
              (.error .ComplianceNotMet, s)
            else
              match (if builder.session_id ≠ 0 then
                        (Storage.getSession s builder.session_id).map (fun _ => ())
                      else .ok ()) with
              | .error e => (.error e, s)
              | .ok _ =>
                let now := env.timestamp
                match checkedAdd64 now builder.ttl_seconds with
                | none => (.error .InvalidTransactionIntent, s)
                | some ttlExpiry =>
                  let quoteFields : Except Error (Bool × Nat × Nat × Nat) :=
                    if builder.quote_id = 0 then .ok (false, 0, 0, ttlExpiry)
                    else
                      match Storage.getQuote s builder.anchor builder.quote_id with
                      | none => .error .QuoteNotFound
                      | some quote =>
                        if quote.valid_until ≤ now then .error .StaleQuote
                        else if quote.base_asset ≠ builder.request.base_asset
                            ∨ quote.quote_asset ≠ builder.request.quote_asset
                            ∨ builder.request.amount < quote.minimum_amount
                            ∨ quote.maximum_amount < builder.request.amount then
                          .error .InvalidQuote
                        else
                          .ok (true, quote.rate, quote.fee_percentage,
                               if quote.valid_until < ttlExpiry then quote.valid_until
                               else ttlExpiry)
                  match quoteFields with
                  | .error e => (.error e, s)
                  | .ok (hasQuote, rate, feePercentage, expiresAt) =>
                    let (intentId, s1) := Storage.getNextIntentId s
                    let intent : TransactionIntent :=
                      { intent_id := intentId, anchor := builder.anchor
                        request := builder.request, quote_id := builder.quote_id
                        has_quote := hasQuote, rate := rate
                        fee_percentage := feePercentage
                        requires_kyc := builder.require_kyc
                        session_id := builder.session_id, created_at := now
                        expires_at := expiresAt }
                    if builder.session_id ≠ 0 then
                      match Contract.logSessionOperation env builder.session_id
                          builder.anchor "intent" "success" intentId s1 with
                      | (.error e, s2) => (.error e, s2)
                      | (.ok _, s2) => (.ok intent, s2)
                    else (.ok intent, s1)

/-- Modelled from the spec: the atomic-commit rule of §5, supplied by the
surrounding execution environment (which is not part of `src/`): a failed
call's storage effects are discarded as a unit, so callers never observe
partial application; a successful call's effects are kept. -/
def commitCall {α : Type} (result : Except Error α × ContractState)
    (pre : ContractState) : Except Error α × ContractState :=
  match result with
  | (.ok a, post) => (.ok a, post)
  | (.error e, _) => (.error e, pre)

/-! ## Characterization of `log_session_operation` -/

/-- When the session is absent, `log_session_operation` fails with
`SessionNotFound` and leaves the state untouched. -/
theorem logOp_none (env : Env) (sid : Nat) (actor : Address) (ty st : String)
    (rd : Nat) {s : ContractState} (h : alGet s.sessions sid = none) :
    Contract.logSessionOperation env sid actor ty st rd s = (.error .SessionNotFound, s) := by
  simp [Contract.logSessionOperation, Storage.getSession, h]

/-- When the session exists, `log_session_operation` returns the fresh global
log id and performs exactly three writes: the per-session counter is bumped,
the global audit counter is bumped, and the `AuditLog` whose
`operation_index` is the pre-increment count is stored under the old audit
counter. -/
theorem logOp_some (env : Env) (sid : Nat) (actor : Address) (ty st : String)
    (rd : Nat) {s : ContractState} {sess : InteractionSession}
    (h : alGet s.sessions sid = some sess) :
    Contract.logSessionOperation env sid actor ty st rd s =
      (.ok s.auditCounter,
       { s with
         sessionOpCounts :=
           alSet s.sessionOpCounts sid (Storage.getSessionOperationCount s sid + 1)
         auditCounter := s.auditCounter + 1
         auditLogs := alSet s.auditLogs s.auditCounter
           { log_id := s.auditCounter, session_id := sid
             operation :=
               { session_id := sid
                 operation_index := Storage.getSessionOperationCount s sid
                 operation_type := ty, timestamp := env.timestamp
                 status := st, result_data := rd }
             actor := actor } }) := by
  simp [Contract.logSessionOperation, Storage.getSession, h,
        Storage.incrementSessionOperationCount, Storage.logOperation,
        Storage.getAndIncrementAuditCounter, Storage.getSessionOperationCount]

/-- `log_session_operation` never touches the session records themselves nor
any of the attestation/quote/admin storage. -/
theorem logOp_frame (env : Env) (sid : Nat) (actor : Address) (ty st : String)
    (rd : Nat) (s : ContractState) :
    ((Contract.logSessionOperation env sid actor ty st rd s).2).sessions = s.sessions
    ∧ ((Contract.logSessionOperation env sid actor ty st rd s).2).attestations = s.attestations
    ∧ ((Contract.logSessionOperation env sid actor ty st rd s).2).usedHashes = s.usedHashes
    ∧ ((Contract.logSessionOperation env sid actor ty st rd s).2).attestors = s.attestors
    ∧ ((Contract.logSessionOperation env sid actor ty st rd s).2).admin = s.admin
    ∧ ((Contract.logSessionOperation env sid actor ty st rd s).2).counter = s.counter
    ∧ ((Contract.logSessionOperation env sid actor ty st rd s).2).sessionCounter = s.sessionCounter
    ∧ ((Contract.logSessionOperation env sid actor ty st rd s).2).quotes = s.quotes
    ∧ ((Contract.logSessionOperation env sid actor ty st rd s).2).quoteCounter = s.quoteCounter
    ∧ ((Contract.logSessionOperation env sid actor ty st rd s).2).intentCounter = s.intentCounter
    ∧ ((Contract.logSessionOperation env sid actor ty st rd s).2).sessionNonces = s.sessionNonces := by
  cases h : alGet s.sessions sid with
  | none => rw [logOp_none env sid actor ty st rd h]; exact ⟨rfl, rfl, rfl, rfl, rfl, rfl, rfl, rfl, rfl, rfl, rfl⟩
  | some sess => rw [logOp_some env sid actor ty st rd h]; exact ⟨rfl, rfl, rfl, rfl, rfl, rfl, rfl, rfl, rfl, rfl, rfl⟩

/-- A successful log bumps the logged session's operation count by one. -/
theorem logOp_opCount_self (env : Env) (sid : Nat) (actor : Address)
    (ty st : String) (rd : Nat) {s : ContractState} {sess : InteractionSession}
    (h : alGet s.sessions sid = some sess) :
    Storage.getSessionOperationCount
        ((Contract.logSessionOperation env sid actor ty st rd s).2) sid
      = Storage.getSessionOperationCount s sid + 1 := by
  rw [logOp_some env sid actor ty st rd h]
  simp [Storage.getSessionOperationCount, alGet_set_self]

/-- Logging for one session leaves every other session's count unchanged. -/
theorem logOp_opCount_ne (env : Env) (sid : Nat) (actor : Address)
    (ty st : String) (rd : Nat) {s : ContractState} {sid' : Nat}
    (hne : sid' ≠ sid) :
    Storage.getSessionOperationCount
        ((Contract.logSessionOperation env sid actor ty st rd s).2) sid'
      = Storage.getSessionOperationCount s sid' := by
  cases h : alGet s.sessions sid with
  | none => rw [logOp_none env sid actor ty st rd h]
  | some sess =>
    rw [logOp_some env sid actor ty st rd h]
    simp only [Storage.getSessionOperationCount]
    rw [alGet_set_ne _ _ hne]

/-- The audit record written by a successful log. -/
theorem logOp_auditLog_new (env : Env) (sid : Nat) (actor : Address)
    (ty st : String) (rd : Nat) {s : ContractState} {sess : InteractionSession}
    (h : alGet s.sessions sid = some sess) :
    alGet ((Contract.logSessionOperation env sid actor ty st rd s).2).auditLogs
        s.auditCounter
      = some
        { log_id := s.auditCounter, session_id := sid
          operation :=
            { session_id := sid
              operation_index := Storage.getSessionOperationCount s sid
              operation_type := ty, timestamp := env.timestamp
              status := st, result_data := rd }
          actor := actor } := by
  rw [logOp_some env sid actor ty st rd h]
  exact alGet_set_self _ _ _

/-! ## Invariants and reachability -/

/-- The replay-guard invariant: every stored attestation's payload hash is in
the used-hash set, and no two stored attestations share a payload hash. -/
def AttestOK (s : ContractState) : Prop :=
  (∀ id a, alGet s.attestations id = some a →
      Storage.isHashUsed s a.payload_hash = true)
  ∧ (∀ id₁ id₂ a₁ a₂, alGet s.attestations id₁ = some a₁ →
      alGet s.attestations id₂ = some a₂ →
      a₁.payload_hash = a₂.payload_hash → id₁ = id₂)

/-- Session ids at or above the session counter are unallocated: neither a
session record nor a per-session operation counter exists for them. -/
def CounterInv (s : ContractState) : Prop :=
  ∀ id, s.sessionCounter ≤ id →
    alGet s.sessions id = none ∧ alGet s.sessionOpCounts id = none

/-- Every stored session record still carries `operation_count = 0`. -/
def SessInv (s : ContractState) : Prop :=
  ∀ sid sess, alGet s.sessions sid = some sess → sess.operation_count = 0

/-- The conjunction of all state invariants established by induction over
reachable states. -/
def StateInv (s : ContractState) : Prop := AttestOK s ∧ CounterInv s ∧ SessInv s

/-- States reachable from deployment through the contract's mutating entry
points.  Post-states are taken as the code leaves them (including writes
made before an early error return); with the §5 atomic-commit rule a failed
call instead keeps the pre-state, which is also reachable, so every state
reachable under committed semantics is reachable here as well. -/
inductive Reachable : ContractState → Prop where
  | deploy : Reachable initState
  | initAdmin (env : Env) (admin : Address) {s : ContractState} :
      Reachable s → Reachable ((Contract.initAdmin env admin s).2)
  | configureServices (env : Env) (anchor : Address) (services : List ServiceType)
      {s : ContractState} :
      Reachable s → Reachable ((Contract.configureServices env anchor services s).2)
  | buildTransactionIntent (env : Env) (builder : TransactionIntentBuilder)
      {s : ContractState} :
      Reachable s → Reachable ((Contract.buildTransactionIntent env builder s).2)
  | createSession (env : Env) (initiator : Address) {s : ContractState} :
      Reachable s → Reachable ((Contract.createSession env initiator s).2)
  | submitAttestationWithSession (env : Env) (sessionId : Nat)
      (issuer subject : Address) (timestamp : Nat) (payloadHash : Hash)
      (signature : SigBytes) {s : ContractState} :
      Reachable s →
      Reachable ((Contract.submitAttestationWithSession env sessionId issuer subject
        timestamp payloadHash signature s).2)
  | registerAttestorWithSession (env : Env) (sessionId : Nat) (attestor : Address)
      {s : ContractState} :
      Reachable s →
      Reachable ((Contract.registerAttestorWithSession env sessionId attestor s).2)
  | revokeAttestorWithSession (env : Env) (sessionId : Nat) (attestor : Address)
      {s : ContractState} :
      Reachable s →
      Reachable ((Contract.revokeAttestorWithSession env sessionId attestor s).2)
  | submitQuote (env : Env) (anchor : Address) (baseAsset quoteAsset : String)
      (rate feePercentage minimumAmount maximumAmount validUntil : Nat)
      {s : ContractState} :
      Reachable s →
      Reachable ((Contract.submitQuote env anchor baseAsset quoteAsset rate
        feePercentage minimumAmount maximumAmount validUntil s).2)
  | initiateTransfer (env : Env) (sender destination : Address) (amount : Int)
      {s : ContractState} :
      Reachable s → Reachable ((Contract.initiateTransfer env sender destination amount s).2)

/-! ## Preservation of the invariants -/

/-- Marking a hash used preserves every previously-used hash. -/
theorem isHashUsed_mark_mono {s : ContractState} {x h : Hash}
    (hx : Storage.isHashUsed s x = true) :
    Storage.isHashUsed (Storage.markHashUsed s h) x = true := by
  by_cases hxh : x = h
  · subst hxh
    simp [Storage.isHashUsed, Storage.markHashUsed, alGet_set_self]
  · simpa [Storage.isHashUsed, Storage.markHashUsed, alGet_set_ne _ _ hxh] using hx

/-- The hash just marked is used afterwards. -/
theorem isHashUsed_mark_self (s : ContractState) (h : Hash) :
    Storage.isHashUsed (Storage.markHashUsed s h) h = true := by
  simp [Storage.isHashUsed, Storage.markHashUsed, alGet_set_self]

/-- Storing a fresh attestation whose hash was unused, then marking that hash,
preserves the replay-guard invariant. -/
theorem attestOK_insert {s : ContractState} (hA : AttestOK s) {h : Hash}
    (hH : Storage.isHashUsed s h = false) (nid : Nat) (att : Attestation)
    (hatt : att.payload_hash = h) :
    AttestOK (Storage.markHashUsed (Storage.setAttestation s nid att) h) := by
  constructor
  · intro nid' a hga
    by_cases hid : nid' = nid
    · subst hid
      rw [show alGet (Storage.markHashUsed (Storage.setAttestation s nid' att) h).attestations nid'
            = some att from alGet_set_self _ _ _] at hga
      cases hga
      rw [hatt]
      exact isHashUsed_mark_self _ _
    · rw [show alGet (Storage.markHashUsed (Storage.setAttestation s nid att) h).attestations nid'
            = alGet s.attestations nid' from alGet_set_ne _ _ hid] at hga
      exact isHashUsed_mark_mono (hA.1 nid' a hga)
  · intro id₁ id₂ a₁ a₂ h₁ h₂ hhash
    by_cases hid₁ : id₁ = nid <;> by_cases hid₂ : id₂ = nid
    · rw [hid₁, hid₂]
    · exfalso
      rw [hid₁] at h₁
      rw [show alGet (Storage.markHashUsed (Storage.setAttestation s nid att) h).attestations nid
            = some att from alGet_set_self _ _ _] at h₁
      cases h₁
      rw [show alGet (Storage.markHashUsed (Storage.setAttestation s nid att) h).attestations id₂
            = alGet s.attestations id₂ from alGet_set_ne _ _ hid₂] at h₂
      have := hA.1 id₂ a₂ h₂
      rw [← hhash, hatt] at this
      rw [this] at hH
      cases hH
    · exfalso
      rw [hid₂] at h₂
      rw [show alGet (Storage.markHashUsed (Storage.setAttestation s nid att) h).attestations nid
            = some att from alGet_set_self _ _ _] at h₂
      cases h₂
      rw [show alGet (Storage.markHashUsed (Storage.setAttestation s nid att) h).attestations id₁
            = alGet s.attestations id₁ from alGet_set_ne _ _ hid₁] at h₁
      have := hA.1 id₁ a₁ h₁
      rw [hhash, hatt] at this
      rw [this] at hH
      cases hH
    · rw [show alGet (Storage.markHashUsed (Storage.setAttestation s nid att) h).attestations id₁
            = alGet s.attestations id₁ from alGet_set_ne _ _ hid₁] at h₁
      rw [show alGet (Storage.markHashUsed (Storage.setAttestation s nid att) h).attestations id₂
            = alGet s.attestations id₂ from alGet_set_ne _ _ hid₂] at h₂
      exact hA.2 id₁ id₂ a₁ a₂ h₁ h₂ hhash

/-- `log_session_operation` preserves all state invariants. -/
theorem stateInv_logOp (env : Env) (sid : Nat) (actor : Address) (ty st : String)
    (rd : Nat) {s : ContractState} (hInv : StateInv s) :
    StateInv ((Contract.logSessionOperation env sid actor ty st rd s).2) := by
  obtain ⟨hA, hC, hS⟩ := hInv
  cases h : alGet s.sessions sid with
  | none => rw [logOp_none env sid actor ty st rd h]; exact ⟨hA, hC, hS⟩
  | some sess =>
    rw [logOp_some env sid actor ty st rd h]
    refine ⟨hA, ?_, hS⟩
    intro id hid
    have hold := hC id hid
    have hsidlt : sid < s.sessionCounter := by
      by_contra hge
      have := (hC sid (Nat.le_of_not_lt hge)).1
      rw [this] at h
      cases h
    have hne : id ≠ sid := by
      intro heq
      subst heq
      exact absurd (Nat.lt_of_lt_of_le hsidlt hid) (Nat.lt_irrefl id)
    exact ⟨hold.1, by rw [alGet_set_ne _ _ hne]; exact hold.2⟩

/-- `initialize` only writes the admin cell. -/
theorem stateInv_initAdmin (env : Env) (admin : Address) {s : ContractState}
    (hInv : StateInv s) : StateInv ((Contract.initAdmin env admin s).2) := by
  by_cases hb : Storage.hasAdmin s <;>
    simp only [Contract.initAdmin, hb, if_true, if_false, Bool.false_eq_true] <;>
    exact hInv

/-- `configure_services` only writes the anchor-services map. -/
theorem stateInv_configureServices (env : Env) (anchor : Address)
    (services : List ServiceType) {s : ContractState} (hInv : StateInv s) :
    StateInv ((Contract.configureServices env anchor services s).2) := by
  unfold Contract.configureServices
  split
  · exact hInv
  · split
    · exact hInv
    · split
      · exact hInv
      · exact hInv

/-- `submit_quote` only writes the quote map and the quote counter. -/
theorem stateInv_submitQuote (env : Env) (anchor : Address)
    (baseAsset quoteAsset : String)
    (rate feePercentage minimumAmount maximumAmount validUntil : Nat)
    {s : ContractState} (hInv : StateInv s) :
    StateInv ((Contract.submitQuote env anchor baseAsset quoteAsset rate
      feePercentage minimumAmount maximumAmount validUntil s).2) := by
  unfold Contract.submitQuote
  split
  · exact hInv
  · split
    · exact hInv
    · split
      · exact hInv
      · split
        · exact hInv
        · exact hInv

/-- `initiate_transfer` only bumps the intent counter. -/
theorem stateInv_initiateTransfer (env : Env) (sender destination : Address)
    (amount : Int) {s : ContractState} (hInv : StateInv s) :
    StateInv ((Contract.initiateTransfer env sender destination amount s).2) :=
  hInv

/-- `create_session` allocates a fresh id and stores a session whose
`operation_count` is zero, preserving all invariants. -/
theorem stateInv_createSession (env : Env) (initiator : Address)
    {s : ContractState} (hInv : StateInv s) :
    StateInv ((Contract.createSession env initiator s).2) := by
  obtain ⟨hA, hC, hS⟩ := hInv
  unfold Contract.createSession
  split
  · exact ⟨hA, hC, hS⟩
  · refine ⟨hA, ?_, ?_⟩
    · intro id hid
      simp only [Storage.createSession, Storage.getAndIncrementSessionCounter] at hid ⊢
      have hlt : s.sessionCounter < id := Nat.lt_of_lt_of_le (Nat.lt_succ_self _) hid
      have hne : id ≠ s.sessionCounter := Nat.ne_of_gt hlt
      constructor
      · rw [alGet_set_ne _ _ hne]
        exact (hC id (Nat.le_of_lt hlt)).1
      · exact (hC id (Nat.le_of_lt hlt)).2
    · intro sid sess hget
      simp only [Storage.createSession, Storage.getAndIncrementSessionCounter] at hget
      by_cases hsid : sid = s.sessionCounter
      · subst hsid
        rw [alGet_set_self] at hget
        cases hget
        rfl
      · rw [alGet_set_ne _ _ hsid] at hget
        exact hS sid sess hget

/-- `register_attestor_with_session` writes the attestor flag and logs. -/
theorem stateInv_registerAttestor (env : Env) (sessionId : Nat)
    (attestor : Address) {s : ContractState} (hInv : StateInv s) :
    StateInv ((Contract.registerAttestorWithSession env sessionId attestor s).2) := by
  unfold Contract.registerAttestorWithSession
  split
  · exact hInv
  case _ admin _ =>
    split
    · have h := stateInv_logOp env sessionId admin "register" "failed" 0 hInv
      split
      case _ e s1 heq => rw [show s1 = (Contract.logSessionOperation env sessionId admin "register" "failed" 0 s).2 from by rw [heq]]; exact h
      case _ r s1 heq => rw [show s1 = (Contract.logSessionOperation env sessionId admin "register" "failed" 0 s).2 from by rw [heq]]; exact h
    · have hInv1 : StateInv (Storage.setAttestor s attestor true) := hInv
      have h := stateInv_logOp env sessionId admin "register" "success" 0 hInv1
      dsimp only
      split
      case _ e s1 heq => rw [show s1 = (Contract.logSessionOperation env sessionId admin "register" "success" 0 (Storage.setAttestor s attestor true)).2 from by rw [heq]]; exact h
      case _ r s1 heq => rw [show s1 = (Contract.logSessionOperation env sessionId admin "register" "success" 0 (Storage.setAttestor s attestor true)).2 from by rw [heq]]; exact h

/-- `revoke_attestor_with_session` writes the attestor flag and logs. -/
theorem stateInv_revokeAttestor (env : Env) (sessionId : Nat)
    (attestor : Address) {s : ContractState} (hInv : StateInv s) :
    StateInv ((Contract.revokeAttestorWithSession env sessionId attestor s).2) := by
  unfold Contract.revokeAttestorWithSession
  split
  · exact hInv
  case _ admin _ =>
    split
    · have h := stateInv_logOp env sessionId admin "revoke" "failed" 0 hInv
      split
      case _ e s1 heq => rw [← congrArg Prod.snd heq]; exact h
      case _ r s1 heq => rw [← congrArg Prod.snd heq]; exact h
    · have hInv1 : StateInv (Storage.setAttestor s attestor false) := hInv
      have h := stateInv_logOp env sessionId admin "revoke" "success" 0 hInv1
      dsimp only
      split
      case _ e s1 heq => rw [← congrArg Prod.snd heq]; exact h
      case _ r s1 heq => rw [← congrArg Prod.snd heq]; exact h

/-- `submit_attestation_with_session` preserves all state invariants; on the
success path this is exactly the replay-guard argument: the stored
attestation's hash was unused before and is marked used together with it. -/
theorem stateInv_submitAttestation (env : Env) (sessionId : Nat)
    (issuer subject : Address) (timestamp : Nat) (payloadHash : Hash)
    (signature : SigBytes) {s : ContractState} (hInv : StateInv s) :
    StateInv ((Contract.submitAttestationWithSession env sessionId issuer subject
      timestamp payloadHash signature s).2) := by
  unfold Contract.submitAttestationWithSession
  split
  · have h := stateInv_logOp env sessionId issuer "attest" "failed" 0 hInv
    split
    case _ e s1 heq => rw [← congrArg Prod.snd heq]; exact h
    case _ r s1 heq => rw [← congrArg Prod.snd heq]; exact h
  · split
    · have h := stateInv_logOp env sessionId issuer "attest" "failed" 0 hInv
      split
      case _ e s1 heq => rw [← congrArg Prod.snd heq]; exact h
      case _ r s1 heq => rw [← congrArg Prod.snd heq]; exact h
    · split
      · have h := stateInv_logOp env sessionId issuer "attest" "failed" 0 hInv
        split
        case _ e s1 heq => rw [← congrArg Prod.snd heq]; exact h
        case _ r s1 heq => rw [← congrArg Prod.snd heq]; exact h
      case _ hHu =>
        have hH : Storage.isHashUsed s payloadHash = false := by
          revert hHu
          cases Storage.isHashUsed s payloadHash <;> simp
        dsimp only [Contract.verifySignature, Storage.getAndIncrementCounter]
        have hInv3 : StateInv
            (Storage.markHashUsed
              (Storage.setAttestation { s with counter := s.counter + 1 } s.counter
                { id := s.counter, issuer := issuer, subject := subject
                  timestamp := timestamp, payload_hash := payloadHash
                  signature := signature })
              payloadHash) :=
          ⟨attestOK_insert hInv.1 hH s.counter _ rfl, hInv.2.1, hInv.2.2⟩
        have h := stateInv_logOp env sessionId issuer "attest" "success" s.counter hInv3
        split
        case _ e s4 heq => rw [← congrArg Prod.snd heq]; exact h
        case _ r s4 heq => rw [← congrArg Prod.snd heq]; exact h

/-- `build_transaction_intent` bumps the intent counter and, when bound to a
session, logs one audit entry; all invariants are preserved. -/
theorem stateInv_buildIntent (env : Env) (builder : TransactionIntentBuilder)
    {s : ContractState} (hInv : StateInv s) :
    StateInv ((Contract.buildTransactionIntent env builder s).2) := by
  unfold Contract.buildTransactionIntent
  dsimp only [Storage.getNextIntentId]
  repeat' split
  all_goals try exact hInv
  all_goals
    rename_i heq
    rw [← congrArg Prod.snd heq]
    exact stateInv_logOp _ _ _ _ _ _ hInv

/-- Every reachable state satisfies all three invariants. -/
theorem reachable_stateInv {s : ContractState} (h : Reachable s) : StateInv s := by
  induction h with
  | deploy =>
    refine ⟨⟨?_, ?_⟩, ?_, ?_⟩
    · intro id a hga; simp [initState, alGet] at hga
    · intro id₁ id₂ a₁ a₂ h₁ h₂ _; simp [initState, alGet] at h₁
    · intro id _; exact ⟨rfl, rfl⟩
    · intro sid sess hget; simp [initState, alGet] at hget
  | initAdmin env admin _ ih => exact stateInv_initAdmin env admin ih
  | configureServices env anchor services _ ih =>
    exact stateInv_configureServices env anchor services ih
  | buildTransactionIntent env builder _ ih => exact stateInv_buildIntent env builder ih
  | createSession env initiator _ ih => exact stateInv_createSession env initiator ih
  | submitAttestationWithSession env sessionId issuer subject timestamp payloadHash signature _ ih =>
    exact stateInv_submitAttestation env sessionId issuer subject timestamp payloadHash signature ih
  | registerAttestorWithSession env sessionId attestor _ ih =>
    exact stateInv_registerAttestor env sessionId attestor ih
  | revokeAttestorWithSession env sessionId attestor _ ih =>
    exact stateInv_revokeAttestor env sessionId attestor ih
  | submitQuote env anchor baseAsset quoteAsset rate feePercentage minimumAmount maximumAmount validUntil _ ih =>
    exact stateInv_submitQuote env anchor baseAsset quoteAsset rate feePercentage minimumAmount maximumAmount validUntil ih
  | initiateTransfer env sender destination amount _ ih =>
    exact stateInv_initiateTransfer env sender destination amount ih

/-! ## Sequences of audit appends -/

/-- One request to `log_session_operation` (its arguments). -/
structure LogReq where
  env : Env
  sessionId : Nat
  actor : Address
  opType : String
  status : String
  resultData : Nat
deriving DecidableEq, Repr

/-- The state after one `log_session_operation` call. -/
def applyLog (r : LogReq) (s : ContractState) : ContractState :=
  (Contract.logSessionOperation r.env r.sessionId r.actor r.opType r.status r.resultData s).2

/-- The state after a sequence of `log_session_operation` calls. -/
def applyLogs : List LogReq → ContractState → ContractState
  | [], s => s
  | r :: rs, s => applyLogs rs (applyLog r s)

/-- How many requests of a sequence target the given session. -/
def countFor (sid : Nat) : List LogReq → Nat
  | [] => 0
  | r :: rs => (if r.sessionId = sid then 1 else 0) + countFor sid rs

theorem applyLog_sessions (r : LogReq) (s : ContractState) :
    (applyLog r s).sessions = s.sessions :=
  (logOp_frame r.env r.sessionId r.actor r.opType r.status r.resultData s).1

theorem applyLogs_sessions (rs : List LogReq) (s : ContractState) :
    (applyLogs rs s).sessions = s.sessions := by
  induction rs generalizing s with
  | nil => rfl
  | cons r rs ih => rw [applyLogs, ih, applyLog_sessions]

/-- A sequence of appends raises a live session's stored count by exactly the
number of requests that target it. -/
theorem applyLogs_count (rs : List LogReq) {s : ContractState} {sid : Nat}
    {sess : InteractionSession} (h : alGet s.sessions sid = some sess) :
    Storage.getSessionOperationCount (applyLogs rs s) sid
      = Storage.getSessionOperationCount s sid + countFor sid rs := by
  induction rs generalizing s with
  | nil => rfl
  | cons r rs ih =>
    have h1 : alGet (applyLog r s).sessions sid = some sess := by
      rw [applyLog_sessions]; exact h
    by_cases hr : r.sessionId = sid
    · have hc : Storage.getSessionOperationCount (applyLog r s) sid
          = Storage.getSessionOperationCount s sid + 1 := by
        subst hr
        exact logOp_opCount_self r.env r.sessionId r.actor r.opType r.status r.resultData h
      rw [applyLogs, ih h1, hc, countFor]
      simp [hr]
      omega
    · have hc : Storage.getSessionOperationCount (applyLog r s) sid
          = Storage.getSessionOperationCount s sid := by
        exact logOp_opCount_ne r.env r.sessionId r.actor r.opType r.status r.resultData
          (fun hh => hr hh.symm)
      rw [applyLogs, ih h1, hc, countFor]
      simp [hr]

/-! ## Concrete scenario used by the witnesses -/

/-- A fixed ledger environment: timestamp 100, sequence 5. -/
def env0 : Env := { timestamp := 100, sequence := 5 }

/-- After `initialize(admin = 0)`. -/
def stA : ContractState := (Contract.initAdmin env0 0 initState).2

/-- After additionally `create_session(initiator = 0)` — session id 0. -/
def stB : ContractState := (Contract.createSession env0 0 stA).2

/-- After additionally `register_attestor_with_session(session 0, attestor 1)`. -/
def stC : ContractState := (Contract.registerAttestorWithSession env0 0 1 stB).2

/-- After additionally a successful
`submit_attestation_with_session(session 0, issuer 1, subject 2,
timestamp 100, payload hash 7)`. -/
def stD : ContractState :=
  (Contract.submitAttestationWithSession env0 0 1 2 100 7 0 stC).2

theorem reachable_stA : Reachable stA :=
  Reachable.initAdmin env0 0 Reachable.deploy

theorem reachable_stB : Reachable stB :=
  Reachable.createSession env0 0 reachable_stA

theorem reachable_stC : Reachable stC :=
  Reachable.registerAttestorWithSession env0 0 1 reachable_stB

theorem reachable_stD : Reachable stD :=
  Reachable.submitAttestationWithSession env0 0 1 2 100 7 0 reachable_stC

/-! ## Claim theorems -/

/-- C3: for every quote request, candidate anchor list, environment and state,
`compare_rates_for_anchors` fails with `NoQuotesAvailable`, because the
per-anchor latest-quote lookup always returns nothing, so the filtered
quote set is always empty and no comparison is ever produced. -/
theorem compare_rates_always_no_quotes :
    ∀ (env : Env) (request : QuoteRequest) (anchors : List Address)
      (s : ContractState),
      Contract.compareRatesForAnchors env request anchors s
        = .error .NoQuotesAvailable := by
  intro env request anchors s
  unfold Contract.compareRatesForAnchors
  dsimp only [Contract.getLatestQuoteForAnchor]
  induction anchors with
  | nil => rfl
  | cons a l ih => exact ih

/-- Quote A of the rate-selection example: `rate = 10000`, `fee_bps = 0`. -/
def quoteA : QuoteData :=
  { anchor := 1, base_asset := "USD", quote_asset := "EUR", rate := 10000
    fee_percentage := 0, minimum_amount := 1, maximum_amount := 1000000
    valid_until := 2000, quote_id := 1 }

/-- Quote B of the rate-selection example: `rate = 9900`, `fee_bps = 50`. -/
def quoteB : QuoteData :=
  { anchor := 2, base_asset := "USD", quote_asset := "EUR", rate := 9900
    fee_percentage := 50, minimum_amount := 1, maximum_amount := 1000000
    valid_until := 2000, quote_id := 2 }

/-- C7: `calculate_effective_rate` computes
`rate * (amount + amount*fee_bps/10000) / amount` in truncating integer
arithmetic — for every positive amount whose intermediates fit in 64 bits
the source's wrapping `u64` computation agrees with the exact formula — and
on the spec's example quotes at `amount = 1000` it yields `10000` and
`9949`, so the second quote has the lower (better) effective rate. -/
theorem effective_rate_formula :
    (∀ (q : QuoteData) (amount : Nat), 0 < amount →
      amount * q.fee_percentage < U64SIZE →
      amount + amount * q.fee_percentage / 10000 < U64SIZE →
      q.rate * (amount + amount * q.fee_percentage / 10000) < U64SIZE →
      calculateEffectiveRate q amount = specEffectiveRate q amount)
    ∧ calculateEffectiveRate quoteA 1000 = 10000
    ∧ calculateEffectiveRate quoteB 1000 = 9949
    ∧ calculateEffectiveRate quoteB 1000 < calculateEffectiveRate quoteA 1000 := by
  refine ⟨?_, by decide, by decide, by decide⟩
  intro q amount _ h1 h2 h3
  unfold calculateEffectiveRate specEffectiveRate w64
  dsimp only
  rw [Nat.mod_eq_of_lt h1, Nat.mod_eq_of_lt h2, Nat.mod_eq_of_lt h3]

theorem effective_rate_formula_witness :
    0 < 1000
    ∧ 1000 * quoteB.fee_percentage < U64SIZE
    ∧ 1000 + 1000 * quoteB.fee_percentage / 10000 < U64SIZE
    ∧ quoteB.rate * (1000 + 1000 * quoteB.fee_percentage / 10000) < U64SIZE
    ∧ calculateEffectiveRate quoteB 1000 = specEffectiveRate quoteB 1000 :=
  ⟨by decide, by decide, by decide, by decide,
   effective_rate_formula.1 quoteB 1000 (by decide) (by decide) (by decide) (by decide)⟩

/-- The credential of the rotation example: `created_at = 1000`, no explicit
rotation flag, no expiry. -/
def credC8 : SecureCredential :=
  { attestor := 1, credential_type := .ApiKey, encrypted_value := 0
    created_at := 1000, expires_at := 0, rotation_required := false }

/-- The policy of the rotation example: `rotation_interval_seconds = 86400`. -/
def policyC8 : CredentialPolicy :=
  { attestor := 1, rotation_interval_seconds := 86400
    require_encryption := true, allow_plaintext_storage := false }

/-- C8: `needs_rotation(now, policy)` is true exactly when the
`rotation_required` flag is set or the interval is positive and the
saturating age `now − created_at` has reached it; when `now` precedes
`created_at` the saturating subtraction makes the age zero, so the result
is just the flag (no panic is possible — the function is total); and on the
example credential it is false at `now = 50000` and true at `now = 90000`. -/
theorem needs_rotation_correct :
    (∀ (c : SecureCredential) (now : Nat) (p : CredentialPolicy),
      c.needs_rotation now p = true ↔
        (c.rotation_required = true ∨
          (0 < p.rotation_interval_seconds
            ∧ p.rotation_interval_seconds ≤ now - c.created_at)))
    ∧ (∀ (c : SecureCredential) (now : Nat) (p : CredentialPolicy),
      now ≤ c.created_at → c.needs_rotation now p = c.rotation_required)
    ∧ credC8.needs_rotation 50000 policyC8 = false
    ∧ credC8.needs_rotation 90000 policyC8 = true := by
  refine ⟨?_, ?_, by decide, by decide⟩
  · intro c now p
    unfold SecureCredential.needs_rotation
    split_ifs with h1 h2
    · simp [h1]
    · simp [h1, h2]
    · simp [h1, h2]
  · intro c now p h
    have hz : now - c.created_at = 0 := Nat.sub_eq_zero_of_le h
    unfold SecureCredential.needs_rotation
    split_ifs with h1 h2
    · exact h1.symm
    · rw [hz]
      have h1' : c.rotation_required = false := (Bool.not_eq_true _).mp h1
      have h2' : ¬ (p.rotation_interval_seconds ≤ 0) := by omega
      simp [h1', h2']
    · exact (Bool.not_eq_true _).mp h1 |>.symm

theorem needs_rotation_correct_witness :
    500 ≤ credC8.created_at
    ∧ credC8.needs_rotation 500 policyC8 = credC8.rotation_required :=
  ⟨by decide, needs_rotation_correct.2.1 credC8 500 policyC8 (by decide)⟩

/-- C1 (amended): in every reachable state no two stored attestations share a
payload hash; once a hash is used, a later submission with the same hash
that passes the earlier guards (nonzero timestamp, registered issuer,
existing session) fails precisely with `ReplayAttack`, for any issuer and
subject; and a submission succeeds only if its hash was unused before, the
post-state having it marked used — so at most one submission per hash ever
succeeds.  (A later submission that fails an *earlier* guard fails with
that guard's error instead of `ReplayAttack`; see the counterexample.) -/
theorem replay_uniqueness_amended :
    (∀ (s : ContractState), Reachable s →
      ∀ (id₁ id₂ : Nat) (a₁ a₂ : Attestation),
        alGet s.attestations id₁ = some a₁ → alGet s.attestations id₂ = some a₂ →
        a₁.payload_hash = a₂.payload_hash → id₁ = id₂)
    ∧ (∀ (env : Env) (sessionId : Nat) (issuer subject : Address) (timestamp : Nat)
        (payloadHash : Hash) (signature : SigBytes) (s : ContractState)
        (sess : InteractionSession),
      Storage.isHashUsed s payloadHash = true → timestamp ≠ 0 →
      Storage.isAttestor s issuer = true → alGet s.sessions sessionId = some sess →
      (Contract.submitAttestationWithSession env sessionId issuer subject timestamp
        payloadHash signature s).1 = .error .ReplayAttack)
    ∧ (∀ (env : Env) (sessionId : Nat) (issuer subject : Address) (timestamp : Nat)
        (payloadHash : Hash) (signature : SigBytes) (s : ContractState)
        (id : Nat) (s' : ContractState),
      Contract.submitAttestationWithSession env sessionId issuer subject timestamp
        payloadHash signature s = (.ok id, s') →
      Storage.isHashUsed s payloadHash = false
        ∧ Storage.isHashUsed s' payloadHash = true) := by
  refine ⟨fun s h => (reachable_stateInv h).1.2, ?_, ?_⟩
  · intro env sessionId issuer subject timestamp payloadHash signature s sess
      hH hts hAtt hSess
    unfold Contract.submitAttestationWithSession
    simp only [hts, hAtt, hH, if_false, Bool.not_true, Bool.false_eq_true, if_true, ite_false,
      ite_true]
    rw [logOp_some env sessionId issuer "attest" "failed" 0 hSess]
  · intro env sessionId issuer subject timestamp payloadHash signature s id s' heq
    unfold Contract.submitAttestationWithSession at heq
    split at heq
    · split at heq <;> simp_all
    · split at heq
      · split at heq <;> simp_all
      · split at heq
        · split at heq <;> simp_all
        case _ hHu =>
          have hH : Storage.isHashUsed s payloadHash = false := by
            revert hHu
            cases Storage.isHashUsed s payloadHash <;> simp
          refine ⟨hH, ?_⟩
          dsimp only [Contract.verifySignature, Storage.getAndIncrementCounter] at heq
          split at heq
          · simp_all
          case _ r s4 heq2 =>
            injection heq with h1 h2
            subst h2
            have h3 := congrArg Prod.snd heq2
            dsimp only at h3
            rw [← h3]
            unfold Storage.isHashUsed
            rw [(logOp_frame _ _ _ _ _ _ _).2.2.1]
            simp [Storage.markHashUsed, alGet_set_self]

/-- C1 counterexample: in the concrete reachable state `stD` an attestation
with payload hash `7` is stored and the hash is marked used, yet a later
submission with the same hash by the unregistered issuer `2` fails with
`UnauthorizedAttestor` — not `ReplayAttack` as the claim states for
arbitrary issuers. -/
theorem replay_uniqueness_cex :
    Storage.isHashUsed stD 7 = true
    ∧ (Contract.submitAttestationWithSession env0 0 2 3 100 7 0 stD).1
        = .error .UnauthorizedAttestor
    ∧ Error.UnauthorizedAttestor ≠ Error.ReplayAttack :=
  ⟨rfl, rfl, by decide⟩

theorem replay_uniqueness_amended_witness :
    Storage.isHashUsed stD 7 = true
    ∧ (100 : Nat) ≠ 0
    ∧ Storage.isAttestor stD 1 = true
    ∧ alGet stD.sessions 0
        = some { session_id := 0, initiator := 0, created_at := 100
                 operation_count := 0, nonce := 5 }
    ∧ (Contract.submitAttestationWithSession env0 0 1 3 100 7 0 stD).1
        = .error .ReplayAttack :=
  ⟨rfl, by decide, rfl, rfl,
   replay_uniqueness_amended.2.1 env0 0 1 3 100 7 0 stD
     { session_id := 0, initiator := 0, created_at := 100
       operation_count := 0, nonce := 5 }
     rfl (by decide) rfl rfl⟩

/-- C2: a freshly created session's count is zero; a successful audit append
for a live session returns the fresh global log id, stores the entry with
`operation_index` equal to the pre-increment per-session count, and raises
the count by one; over any sequence of appends — with arbitrary statuses,
including `"failed"` — the count equals the initial count plus the number
of appends targeting the session, and the append following any prefix with
`k` entries for the session records `operation_index = k` (counting from
the session's creation, the `k`-th successful append records `k − 1`). -/
theorem audit_monotonicity :
    (∀ (env : Env) (initiator : Address) (s : ContractState) (sid : Nat)
        (s' : ContractState),
      Reachable s → Contract.createSession env initiator s = (.ok sid, s') →
      Contract.getSessionOperationCount s' sid = .ok 0)
    ∧ (∀ (env : Env) (sid : Nat) (actor : Address) (ty st : String) (rd : Nat)
        (s : ContractState) (sess : InteractionSession),
      alGet s.sessions sid = some sess →
      (Contract.logSessionOperation env sid actor ty st rd s).1 = .ok s.auditCounter
      ∧ Storage.getSessionOperationCount
          ((Contract.logSessionOperation env sid actor ty st rd s).2) sid
        = Storage.getSessionOperationCount s sid + 1
      ∧ alGet ((Contract.logSessionOperation env sid actor ty st rd s).2).auditLogs
          s.auditCounter
        = some
          { log_id := s.auditCounter, session_id := sid
            operation :=
              { session_id := sid
                operation_index := Storage.getSessionOperationCount s sid
                operation_type := ty, timestamp := env.timestamp
                status := st, result_data := rd }
            actor := actor })
    ∧ (∀ (rs : List LogReq) (s : ContractState) (sid : Nat)
        (sess : InteractionSession),
      alGet s.sessions sid = some sess →
      Contract.getSessionOperationCount (applyLogs rs s) sid
        = .ok (Storage.getSessionOperationCount s sid + countFor sid rs))
    ∧ (∀ (pre : List LogReq) (r : LogReq) (s : ContractState) (sid : Nat)
        (sess : InteractionSession),
      alGet s.sessions sid = some sess → r.sessionId = sid →
      alGet (applyLog r (applyLogs pre s)).auditLogs (applyLogs pre s).auditCounter
        = some
          { log_id := (applyLogs pre s).auditCounter, session_id := sid
            operation :=
              { session_id := sid
                operation_index :=
                  Storage.getSessionOperationCount s sid + countFor sid pre
                operation_type := r.opType, timestamp := r.env.timestamp
                status := r.status, result_data := r.resultData }
            actor := r.actor }) := by
  refine ⟨?_, ?_, ?_, ?_⟩
  · intro env initiator s sid s' hReach heq
    have hCI := (reachable_stateInv hReach).2.1
    unfold Contract.createSession at heq
    split at heq
    · simp_all
    · dsimp only [Storage.createSession, Storage.getAndIncrementSessionCounter] at heq
      injection heq with h1 h2
      injection h1 with h1
      subst h1
      subst h2
      dsimp only [Contract.getSessionOperationCount, Storage.getSession,
        Storage.getSessionOperationCount]
      rw [alGet_set_self]
      have hnone := (hCI s.sessionCounter (Nat.le_refl _)).2
      simp [hnone]
  · intro env sid actor ty st rd s sess hSess
    refine ⟨?_, logOp_opCount_self env sid actor ty st rd hSess,
      logOp_auditLog_new env sid actor ty st rd hSess⟩
    rw [logOp_some env sid actor ty st rd hSess]
  · intro rs s sid sess hSess
    have h1 : alGet (applyLogs rs s).sessions sid = some sess := by
      rw [applyLogs_sessions]; exact hSess
    simp only [Contract.getSessionOperationCount, Storage.getSession, h1]
    rw [applyLogs_count rs hSess]
  · intro pre r s sid sess hSess hr
    have h1 : alGet (applyLogs pre s).sessions sid = some sess := by
      rw [applyLogs_sessions]; exact hSess
    have h2 := logOp_auditLog_new r.env sid r.actor r.opType r.status r.resultData h1
    unfold applyLog
    rw [hr, h2, applyLogs_count pre hSess]

/-- A failed-append request used by the audit-monotonicity witness. -/
def reqF : LogReq :=
  { env := env0, sessionId := 0, actor := 9, opType := "attest"
    status := "failed", resultData := 0 }

theorem audit_monotonicity_witness :
    alGet stB.sessions 0
      = some { session_id := 0, initiator := 0, created_at := 100
               operation_count := 0, nonce := 5 }
    ∧ Contract.getSessionOperationCount (applyLogs [reqF, reqF] stB) 0
        = .ok (Storage.getSessionOperationCount stB 0 + countFor 0 [reqF, reqF])
    ∧ Storage.getSessionOperationCount stB 0 + countFor 0 [reqF, reqF] = 2 :=
  ⟨rfl,
   audit_monotonicity.2.2.1 [reqF, reqF] stB 0
     { session_id := 0, initiator := 0, created_at := 100
       operation_count := 0, nonce := 5 } rfl,
   by decide⟩

/-- C10: in every reachable state, every stored `InteractionSession` record
still has `operation_count = 0` — no operation ever rewrites the record
after creation; the audit engine never touches the session map, keeping the
live count only under the separate per-session counter key. -/
theorem session_operation_count_frozen :
    (∀ (s : ContractState), Reachable s →
      ∀ (sid : Nat) (sess : InteractionSession),
        Storage.getSession s sid = .ok sess → sess.operation_count = 0)
    ∧ (∀ (env : Env) (sid : Nat) (actor : Address) (ty st : String) (rd : Nat)
        (s : ContractState),
      ((Contract.logSessionOperation env sid actor ty st rd s).2).sessions
        = s.sessions) := by
  constructor
  · intro s h sid sess hget
    have hS := (reachable_stateInv h).2.2
    unfold Storage.getSession at hget
    cases ha : alGet s.sessions sid with
    | none => rw [ha] at hget; cases hget
    | some v =>
      rw [ha] at hget
      injection hget with hv
      subst hv
      exact hS sid v ha
  · intro env sid actor ty st rd s
    exact (logOp_frame env sid actor ty st rd s).1

theorem session_operation_count_frozen_witness :
    Storage.getSession stD 0
      = .ok { session_id := 0, initiator := 0, created_at := 100
              operation_count := 0, nonce := 5 }
    ∧ ({ session_id := 0, initiator := 0, created_at := 100
         operation_count := 0, nonce := 5 } : InteractionSession).operation_count = 0
    ∧ Storage.getSessionOperationCount stD 0 = 2 :=
  ⟨rfl, session_operation_count_frozen.1 stD reachable_stD 0 _ rfl, rfl⟩

/-- C4: whenever `build_transaction_intent` succeeds with a nonzero
`quote_id`, the returned intent copies `rate` and `fee_percentage` from the
stored quote, has `has_quote = true`, and expires at
`min(now + ttl_seconds, quote.valid_until)`. -/
theorem intent_inherits_quote :
    ∀ (env : Env) (builder : TransactionIntentBuilder) (s : ContractState)
      (r : TransactionIntent) (s' : ContractState),
      builder.quote_id ≠ 0 →
      Contract.buildTransactionIntent env builder s = (.ok r, s') →
      ∃ q : QuoteData,
        Storage.getQuote s builder.anchor builder.quote_id = some q
        ∧ r.has_quote = true
        ∧ r.rate = q.rate
        ∧ r.fee_percentage = q.fee_percentage
        ∧ r.expires_at = min (env.timestamp + builder.ttl_seconds) q.valid_until := by
  intro env builder s r s' hq heq
  unfold Contract.buildTransactionIntent at heq
  repeat' split at heq
  all_goals try simp at heq
  all_goals try (cases hca : checkedAdd64 env.timestamp builder.ttl_seconds <;>
    rw [hca] at heq <;> simp at heq)
  all_goals try (split_ifs at heq <;> simp at heq)
  all_goals
    obtain ⟨hr, -⟩ := heq
    subst hr
    simp only [checkedAdd64] at hca
    split_ifs at hca
    injection hca with hval
    subst hval
    refine ⟨_, by assumption, rfl, rfl, rfl, ?_⟩
    simp only [inf_eq_min, Nat.min_def]
    split_ifs <;> omega

/-- The ledger environment of the expiry-tightening example: `now = 1000`. -/
def env1 : Env := { timestamp := 1000, sequence := 6 }

/-- `stC` after `configure_services(anchor 1, [Deposits, Quotes])`. -/
def stE : ContractState :=
  (Contract.configureServices env1 1 [ServiceType.Deposits, ServiceType.Quotes] stC).2

/-- `stE` after anchor 1 submits a quote with `rate = 9900`, `fee_bps = 50`,
bounds `[1, 1000000]` and `valid_until = 1400` (quote id 1). -/
def stF : ContractState :=
  (Contract.submitQuote env1 1 "USD" "EUR" 9900 50 1 1000000 1400 stE).2

/-- The intent request of the expiry-tightening example: quote 1, no session,
`ttl_seconds = 600`. -/
def builder1 : TransactionIntentBuilder :=
  { anchor := 1
    request := { base_asset := "USD", quote_asset := "EUR", amount := 1000
                 operation_type := .Deposits }
    quote_id := 1, require_kyc := false, session_id := 0, ttl_seconds := 600 }

/-- The quote stored in `stF` under `(anchor 1, quote id 1)`. -/
def quoteW : QuoteData :=
  { anchor := 1, base_asset := "USD", quote_asset := "EUR", rate := 9900
    fee_percentage := 50, minimum_amount := 1, maximum_amount := 1000000
    valid_until := 1400, quote_id := 1 }

/-- The intent produced by `build_transaction_intent env1 builder1 stF`. -/
def intent1 : TransactionIntent :=
  { intent_id := 1, anchor := 1
    request := { base_asset := "USD", quote_asset := "EUR", amount := 1000
                 operation_type := .Deposits }
    quote_id := 1, has_quote := true, rate := 9900, fee_percentage := 50
    requires_kyc := false, session_id := 0, created_at := 1000
    expires_at := 1400 }

/-- The post-state of `build_transaction_intent env1 builder1 stF`. -/
def stF' : ContractState := (Contract.buildTransactionIntent env1 builder1 stF).2

theorem intent_inherits_quote_witness :
    builder1.quote_id ≠ 0
    ∧ intent1.has_quote = true
    ∧ intent1.rate = 9900
    ∧ intent1.fee_percentage = 50
    ∧ intent1.expires_at = 1400 := by
  have h := intent_inherits_quote env1 builder1 stF intent1 stF' (by decide) rfl
  obtain ⟨q, hq, h1, h2, h3, h4⟩ := h
  have hqe : q = quoteW := by
    have hgq : Storage.getQuote stF builder1.anchor builder1.quote_id = some quoteW := rfl
    rw [hgq] at hq
    injection hq with hq
    exact hq.symm
  subst hqe
  exact ⟨by decide, h1, h2.trans rfl, h3.trans rfl, h4.trans (by decide)⟩

/-- C6 (amended): for a registered anchor whose services were never
configured, `submit_quote` always fails — with `ServicesNotConfigured`
when `rate ≠ 0` and `valid_until` is in the future, but with `InvalidQuote`
otherwise: the rate/validity check runs *before* the declared-services
check, so it, not the services check, takes precedence. -/
theorem submit_quote_precedence_amended :
    (∀ (env : Env) (anchor : Address) (baseAsset quoteAsset : String)
        (rate feePercentage minimumAmount maximumAmount validUntil : Nat)
        (s : ContractState),
      Storage.isAttestor s anchor = true →
      alGet s.anchorServices anchor = none →
      rate ≠ 0 → env.timestamp < validUntil →
      Contract.submitQuote env anchor baseAsset quoteAsset rate feePercentage
        minimumAmount maximumAmount validUntil s
        = (.error .ServicesNotConfigured, s))
    ∧ (∀ (env : Env) (anchor : Address) (baseAsset quoteAsset : String)
        (rate feePercentage minimumAmount maximumAmount validUntil : Nat)
        (s : ContractState),
      Storage.isAttestor s anchor = true →
      (rate = 0 ∨ validUntil ≤ env.timestamp) →
      Contract.submitQuote env anchor baseAsset quoteAsset rate feePercentage
        minimumAmount maximumAmount validUntil s
        = (.error .InvalidQuote, s)) := by
  constructor
  · intro env anchor baseAsset quoteAsset rate feePercentage minimumAmount
      maximumAmount validUntil s hAtt hSvc hr hv
    unfold Contract.submitQuote
    have hcond : ¬(rate = 0 ∨ validUntil ≤ env.timestamp) := by
      push_neg
      exact ⟨hr, by omega⟩
    simp only [hAtt, Bool.not_true, Bool.false_eq_true, if_false, hcond, ite_false]
    unfold Storage.getAnchorServices
    rw [hSvc]
  · intro env anchor baseAsset quoteAsset rate feePercentage minimumAmount
      maximumAmount validUntil s hAtt hcond
    unfold Contract.submitQuote
    simp only [hAtt, Bool.not_true, Bool.false_eq_true, if_false, hcond, ite_true]

/-- C6 counterexample: in the concrete state `stC` the anchor `1` is a
registered attestor with no configured services, yet `submit_quote` with
`rate = 0` fails with `InvalidQuote`, not `ServicesNotConfigured` — the
declared-services check does not take precedence. -/
theorem submit_quote_precedence_cex :
    Storage.isAttestor stC 1 = true
    ∧ Storage.getAnchorServices stC 1 = .error .ServicesNotConfigured
    ∧ (Contract.submitQuote env1 1 "USD" "EUR" 0 50 1 1000000 1400 stC).1
        = .error .InvalidQuote
    ∧ Error.InvalidQuote ≠ Error.ServicesNotConfigured :=
  ⟨rfl, rfl, rfl, by decide⟩

theorem submit_quote_precedence_witness :
    Storage.isAttestor stC 1 = true
    ∧ alGet stC.anchorServices 1 = none
    ∧ (9900 : Nat) ≠ 0
    ∧ env1.timestamp < 1400
    ∧ Contract.submitQuote env1 1 "USD" "EUR" 9900 50 1 1000000 1400 stC
        = (.error .ServicesNotConfigured, stC) :=
  ⟨rfl, rfl, by decide, by decide,
   submit_quote_precedence_amended.1 env1 1 "USD" "EUR" 9900 50 1 1000000 1400 stC
     rfl rfl (by decide) (by decide)⟩

/-- C9: the session counter starts at 0 and `create_session` returns its
pre-increment value, so the first session gets id 0; but
`build_transaction_intent` treats `session_id = 0` as "no session": it
skips the session-existence check, writes no audit entry (audit log map,
audit counter and per-session counters are untouched), and any intent it
returns carries `session_id = 0` — so an intent can never be bound to or
audited against the first created session. -/
theorem first_session_unbindable :
    initState.sessionCounter = 0
    ∧ (∀ (env : Env) (initiator : Address) (s : ContractState),
        Storage.hasAdmin s = true → s.sessionCounter = 0 →
        (Contract.createSession env initiator s).1 = .ok 0)
    ∧ (∀ (env : Env) (builder : TransactionIntentBuilder) (s : ContractState),
        builder.session_id = 0 →
        ((Contract.buildTransactionIntent env builder s).2).auditLogs = s.auditLogs
        ∧ ((Contract.buildTransactionIntent env builder s).2).sessionOpCounts
            = s.sessionOpCounts
        ∧ ((Contract.buildTransactionIntent env builder s).2).auditCounter
            = s.auditCounter)
    ∧ (∀ (env : Env) (builder : TransactionIntentBuilder) (s : ContractState)
        (r : TransactionIntent) (s' : ContractState),
        builder.session_id = 0 →
        Contract.buildTransactionIntent env builder s = (.ok r, s') →
        r.session_id = 0) := by
  refine ⟨rfl, ?_, ?_, ?_⟩
  · intro env initiator s hA h0
    unfold Contract.createSession Storage.getAdmin
    unfold Storage.hasAdmin at hA
    cases ha : s.admin with
    | none => rw [ha] at hA; cases hA
    | some a =>
      dsimp only [Storage.createSession, Storage.getAndIncrementSessionCounter]
      rw [h0]
  · intro env builder s hz
    unfold Contract.buildTransactionIntent
    simp only [hz, ne_eq, not_true_eq_false, ite_false, if_false]
    repeat' split
    all_goals exact ⟨rfl, rfl, rfl⟩
  · intro env builder s r s' hz heq
    unfold Contract.buildTransactionIntent at heq
    repeat' split at heq
    all_goals try simp at heq
    all_goals try (exact absurd hz (by assumption))
    all_goals try (cases hca : checkedAdd64 env.timestamp builder.ttl_seconds <;>
      rw [hca] at heq <;> simp at heq)
    all_goals try (split_ifs at heq <;> simp at heq)
    all_goals
      obtain ⟨hr, -⟩ := heq
      subst hr
      exact hz

theorem first_session_unbindable_witness :
    Storage.hasAdmin stA = true
    ∧ stA.sessionCounter = 0
    ∧ (Contract.createSession env0 0 stA).1 = .ok 0
    ∧ builder1.session_id = 0
    ∧ stF'.auditLogs = stF.auditLogs :=
  ⟨rfl, rfl, first_session_unbindable.2.1 env0 0 stA rfl rfl, rfl,
   (first_session_unbindable.2.2.1 env1 builder1 stF rfl).1⟩

/-- The observable consequences shared by every guard-failure path of the
session-scoped operations: the call returns its guard's error, the session
count was bumped, a `"failed"` audit record was stored — and under the §5
atomic-commit rule (`commitCall`) all of it is discarded with the error. -/
theorem failedLog_obs {α : Type} (env : Env) (sid : Nat) (actor : Address)
    (ty : String) (E : Error) {s : ContractState} {sess : InteractionSession}
    (hSess : alGet s.sessions sid = some sess)
    (f : Except Error α × ContractState)
    (hf : f = (.error E, (Contract.logSessionOperation env sid actor ty "failed" 0 s).2)) :
    f.1 = .error E
    ∧ Storage.getSessionOperationCount f.2 sid
        = Storage.getSessionOperationCount s sid + 1
    ∧ alGet f.2.auditLogs s.auditCounter
        = some
          { log_id := s.auditCounter, session_id := sid
            operation :=
              { session_id := sid
                operation_index := Storage.getSessionOperationCount s sid
                operation_type := ty, timestamp := env.timestamp
                status := "failed", result_data := 0 }
            actor := actor }
    ∧ commitCall f s = (.error E, s) := by
  subst hf
  exact ⟨rfl, logOp_opCount_self env sid actor ty "failed" 0 hSess,
    logOp_auditLog_new env sid actor ty "failed" 0 hSess, rfl⟩

theorem submitAttestation_ts0_eq (env : Env) (sid : Nat) (issuer subject : Address)
    (payloadHash : Hash) (signature : SigBytes) {s : ContractState}
    {sess : InteractionSession} (hSess : alGet s.sessions sid = some sess) :
    Contract.submitAttestationWithSession env sid issuer subject 0 payloadHash signature s
      = (.error .InvalidTimestamp,
         (Contract.logSessionOperation env sid issuer "attest" "failed" 0 s).2) := by
  unfold Contract.submitAttestationWithSession
  rw [if_pos rfl, logOp_some env sid issuer "attest" "failed" 0 hSess]

theorem submitAttestation_unregistered_eq (env : Env) (sid : Nat)
    (issuer subject : Address) (timestamp : Nat) (payloadHash : Hash)
    (signature : SigBytes) {s : ContractState} {sess : InteractionSession}
    (hSess : alGet s.sessions sid = some sess) (hts : timestamp ≠ 0)
    (hAtt : Storage.isAttestor s issuer = false) :
    Contract.submitAttestationWithSession env sid issuer subject timestamp
        payloadHash signature s
      = (.error .UnauthorizedAttestor,
         (Contract.logSessionOperation env sid issuer "attest" "failed" 0 s).2) := by
  unfold Contract.submitAttestationWithSession
  simp only [hts, hAtt, Bool.not_false, if_false, ite_false, ite_true,
    logOp_some env sid issuer "attest" "failed" 0 hSess]

theorem submitAttestation_replay_eq (env : Env) (sid : Nat)
    (issuer subject : Address) (timestamp : Nat) (payloadHash : Hash)
    (signature : SigBytes) {s : ContractState} {sess : InteractionSession}
    (hSess : alGet s.sessions sid = some sess) (hts : timestamp ≠ 0)
    (hAtt : Storage.isAttestor s issuer = true)
    (hH : Storage.isHashUsed s payloadHash = true) :
    Contract.submitAttestationWithSession env sid issuer subject timestamp
        payloadHash signature s
      = (.error .ReplayAttack,
         (Contract.logSessionOperation env sid issuer "attest" "failed" 0 s).2) := by
  unfold Contract.submitAttestationWithSession
  simp only [hts, hAtt, hH, Bool.not_true, Bool.false_eq_true, if_false, ite_false,
    ite_true, logOp_some env sid issuer "attest" "failed" 0 hSess]

theorem registerAttestor_dup_eq (env : Env) (sid : Nat) (attestor : Address)
    {s : ContractState} {sess : InteractionSession} {admin : Address}
    (hSess : alGet s.sessions sid = some sess) (hadm : s.admin = some admin)
    (hAtt : Storage.isAttestor s attestor = true) :
    Contract.registerAttestorWithSession env sid attestor s
      = (.error .AttestorAlreadyRegistered,
         (Contract.logSessionOperation env sid admin "register" "failed" 0 s).2) := by
  unfold Contract.registerAttestorWithSession Storage.getAdmin
  rw [hadm]
  simp only [hAtt, ite_true, logOp_some env sid admin "register" "failed" 0 hSess]

theorem revokeAttestor_missing_eq (env : Env) (sid : Nat) (attestor : Address)
    {s : ContractState} {sess : InteractionSession} {admin : Address}
    (hSess : alGet s.sessions sid = some sess) (hadm : s.admin = some admin)
    (hAtt : Storage.isAttestor s attestor = false) :
    Contract.revokeAttestorWithSession env sid attestor s
      = (.error .AttestorNotRegistered,
         (Contract.logSessionOperation env sid admin "revoke" "failed" 0 s).2) := by
  unfold Contract.revokeAttestorWithSession Storage.getAdmin
  rw [hadm]
  simp only [hAtt, Bool.not_false, ite_true,
    logOp_some env sid admin "revoke" "failed" 0 hSess]

/-- C5 (amended): on every guard-failure path of the session-scoped guarded
operations (zero timestamp, unregistered issuer or already-used payload
hash for `submit_attestation_with_session`; already-registered attestor for
`register_attestor_with_session`; unregistered attestor for
`revoke_attestor_with_session`), the code — before returning the guard's
error — appends a `status = "failed"` audit entry to the existing session's
trail and increments that session's operation count by one; but under the
§5 atomic-commit rule these effects are discarded together with the failed
call (`commitCall` returns the error with the pre-state), so after the call
returns its error the entry is *not* observable and the count is
unchanged. -/
theorem failed_audit_logged_amended :
    (∀ (env : Env) (sid : Nat) (issuer subject : Address) (payloadHash : Hash)
        (signature : SigBytes) (s : ContractState) (sess : InteractionSession),
      alGet s.sessions sid = some sess →
      (Contract.submitAttestationWithSession env sid issuer subject 0 payloadHash
          signature s).1 = .error .InvalidTimestamp
      ∧ Storage.getSessionOperationCount
          (Contract.submitAttestationWithSession env sid issuer subject 0 payloadHash
            signature s).2 sid
        = Storage.getSessionOperationCount s sid + 1
      ∧ alGet (Contract.submitAttestationWithSession env sid issuer subject 0
            payloadHash signature s).2.auditLogs s.auditCounter
        = some
          { log_id := s.auditCounter, session_id := sid
            operation :=
              { session_id := sid
                operation_index := Storage.getSessionOperationCount s sid
                operation_type := "attest", timestamp := env.timestamp
                status := "failed", result_data := 0 }
            actor := issuer }
      ∧ commitCall (Contract.submitAttestationWithSession env sid issuer subject 0
            payloadHash signature s) s
        = (.error .InvalidTimestamp, s))
    ∧ (∀ (env : Env) (sid : Nat) (issuer subject : Address) (timestamp : Nat)
        (payloadHash : Hash) (signature : SigBytes) (s : ContractState)
        (sess : InteractionSession),
      alGet s.sessions sid = some sess → timestamp ≠ 0 →
      Storage.isAttestor s issuer = false →
      (Contract.submitAttestationWithSession env sid issuer subject timestamp
          payloadHash signature s).1 = .error .UnauthorizedAttestor
      ∧ Storage.getSessionOperationCount
          (Contract.submitAttestationWithSession env sid issuer subject timestamp
            payloadHash signature s).2 sid
        = Storage.getSessionOperationCount s sid + 1
      ∧ commitCall (Contract.submitAttestationWithSession env sid issuer subject
            timestamp payloadHash signature s) s
        = (.error .UnauthorizedAttestor, s))
    ∧ (∀ (env : Env) (sid : Nat) (issuer subject : Address) (timestamp : Nat)
        (payloadHash : Hash) (signature : SigBytes) (s : ContractState)
        (sess : InteractionSession),
      alGet s.sessions sid = some sess → timestamp ≠ 0 →
      Storage.isAttestor s issuer = true →
      Storage.isHashUsed s payloadHash = true →
      (Contract.submitAttestationWithSession env sid issuer subject timestamp
          payloadHash signature s).1 = .error .ReplayAttack
      ∧ Storage.getSessionOperationCount
          (Contract.submitAttestationWithSession env sid issuer subject timestamp
            payloadHash signature s).2 sid
        = Storage.getSessionOperationCount s sid + 1
      ∧ commitCall (Contract.submitAttestationWithSession env sid issuer subject
            timestamp payloadHash signature s) s
        = (.error .ReplayAttack, s))
    ∧ (∀ (env : Env) (sid : Nat) (attestor : Address) (s : ContractState)
        (sess : InteractionSession) (admin : Address),
      alGet s.sessions sid = some sess → s.admin = some admin →
      Storage.isAttestor s attestor = true →
      (Contract.registerAttestorWithSession env sid attestor s).1
        = .error .AttestorAlreadyRegistered
      ∧ Storage.getSessionOperationCount
          (Contract.registerAttestorWithSession env sid attestor s).2 sid
        = Storage.getSessionOperationCount s sid + 1
      ∧ alGet (Contract.registerAttestorWithSession env sid attestor s).2.auditLogs
          s.auditCounter
        = some
          { log_id := s.auditCounter, session_id := sid
            operation :=
              { session_id := sid
                operation_index := Storage.getSessionOperationCount s sid
                operation_type := "register", timestamp := env.timestamp
                status := "failed", result_data := 0 }
            actor := admin }
      ∧ commitCall (Contract.registerAttestorWithSession env sid attestor s) s
        = (.error .AttestorAlreadyRegistered, s))
    ∧ (∀ (env : Env) (sid : Nat) (attestor : Address) (s : ContractState)
        (sess : InteractionSession) (admin : Address),
      alGet s.sessions sid = some sess → s.admin = some admin →
      Storage.isAttestor s attestor = false →
      (Contract.revokeAttestorWithSession env sid attestor s).1
        = .error .AttestorNotRegistered
      ∧ Storage.getSessionOperationCount
          (Contract.revokeAttestorWithSession env sid attestor s).2 sid
        = Storage.getSessionOperationCount s sid + 1
      ∧ commitCall (Contract.revokeAttestorWithSession env sid attestor s) s
        = (.error .AttestorNotRegistered, s)) := by
  refine ⟨?_, ?_, ?_, ?_, ?_⟩
  · intro env sid issuer subject payloadHash signature s sess hSess
    exact failedLog_obs env sid issuer "attest" .InvalidTimestamp hSess _
      (submitAttestation_ts0_eq env sid issuer subject payloadHash signature hSess)
  · intro env sid issuer subject timestamp payloadHash signature s sess hSess hts hAtt
    have h := failedLog_obs env sid issuer "attest" .UnauthorizedAttestor hSess _
      (submitAttestation_unregistered_eq env sid issuer subject timestamp payloadHash
        signature hSess hts hAtt)
    exact ⟨h.1, h.2.1, h.2.2.2⟩
  · intro env sid issuer subject timestamp payloadHash signature s sess hSess hts hAtt hH
    have h := failedLog_obs env sid issuer "attest" .ReplayAttack hSess _
      (submitAttestation_replay_eq env sid issuer subject timestamp payloadHash
        signature hSess hts hAtt hH)
    exact ⟨h.1, h.2.1, h.2.2.2⟩
  · intro env sid attestor s sess admin hSess hadm hAtt
    exact failedLog_obs env sid admin "register" .AttestorAlreadyRegistered hSess _
      (registerAttestor_dup_eq env sid attestor hSess hadm hAtt)
  · intro env sid attestor s sess admin hSess hadm hAtt
    have h := failedLog_obs env sid admin "revoke" .AttestorNotRegistered hSess _
      (revokeAttestor_missing_eq env sid attestor hSess hadm hAtt)
    exact ⟨h.1, h.2.1, h.2.2.2⟩

/-- C5 counterexample: in the concrete state `stB` (admin 0, session 0 with
operation count 0), a `submit_attestation_with_session` call with
`timestamp = 0` fails, and under the §5 atomic-commit rule the committed
post-state's operation count for session 0 is still 0 — it did not
increase by one, and no `"failed"` entry remains observable. -/
theorem failed_audit_logged_cex :
    Storage.getSessionOperationCount stB 0 = 0
    ∧ (commitCall (Contract.submitAttestationWithSession env0 0 1 2 0 7 0 stB) stB).1
        = .error .InvalidTimestamp
    ∧ Storage.getSessionOperationCount
        (commitCall (Contract.submitAttestationWithSession env0 0 1 2 0 7 0 stB) stB).2 0
      = 0
    ∧ alGet
        (commitCall (Contract.submitAttestationWithSession env0 0 1 2 0 7 0 stB) stB).2.auditLogs
        stB.auditCounter
      = none :=
  ⟨rfl, rfl, rfl, rfl⟩

theorem failed_audit_logged_witness :
    alGet stB.sessions 0
      = some { session_id := 0, initiator := 0, created_at := 100
               operation_count := 0, nonce := 5 }
    ∧ (Contract.submitAttestationWithSession env0 0 1 2 0 7 0 stB).1
        = .error .InvalidTimestamp :=
  ⟨rfl,
   (failed_audit_logged_amended.1 env0 0 1 2 7 0 stB
     { session_id := 0, initiator := 0, created_at := 100
       operation_count := 0, nonce := 5 } rfl).1⟩
